import Mathlib

/-!
Verification of the rule-evaluation pipeline of `src/app.py`
(the gene-woofallback decision engine).

The Python source is shallowly embedded below:

* `has_any`            — escalation keyword substring matcher (`app.py`, lines 44-46)
* `parse_amount`       — first-match dollar amount parser      (`app.py`, lines 48-59)
* `detect_unfiled`, `detect_no_unfiled`, `detect_state_issue`
                       — regex detectors                       (`app.py`, lines 61-104)
* `first_name`         — name personalization                  (`app.py`, lines 106-108)
* `build_response`     — the ordered decision table            (`app.py`, lines 124-239)

Machine strings are lists of characters; Python `str.lower`, `str.strip`,
`str.split` and the `re` patterns are modelled over the ASCII fragment that the
keyword sets, patterns and messages actually use (the Python functions agree
with this model on ASCII input).  Regular expressions with word boundaries are
interpreted by a small backtracking matcher (`matchRE` / `searchRE`) over an
explicit syntax `RE`; `re.search` returns a match iff the matcher succeeds at
some start position.
-/

/-- ASCII lowercase, as `str.lower` acts on ASCII letters. -/
def lowerChar (c : Char) : Char :=
  match c with
  | 'A' => 'a' | 'B' => 'b' | 'C' => 'c' | 'D' => 'd' | 'E' => 'e' | 'F' => 'f'
  | 'G' => 'g' | 'H' => 'h' | 'I' => 'i' | 'J' => 'j' | 'K' => 'k' | 'L' => 'l'
  | 'M' => 'm' | 'N' => 'n' | 'O' => 'o' | 'P' => 'p' | 'Q' => 'q' | 'R' => 'r'
  | 'S' => 's' | 'T' => 't' | 'U' => 'u' | 'V' => 'v' | 'W' => 'w' | 'X' => 'x'
  | 'Y' => 'y' | 'Z' => 'z'
  | c => c

def lowerList (cs : List Char) : List Char := cs.map lowerChar

/-- The ASCII whitespace class of Python `\s` / `str.strip`. -/
def isSp (c : Char) : Bool :=
  c == ' ' || c == '\t' || c == '\n' || c == '\r' || c == '\x0b' || c == '\x0c'

/-- `str.strip()`: drop whitespace from both ends. -/
def trimList (cs : List Char) : List Char :=
  ((cs.dropWhile isSp).reverse.dropWhile isSp).reverse

/-- `str.replace(",", "")`: remove every comma. -/
def stripCommas (cs : List Char) : List Char := cs.filter (fun c => c != ',')

/-- Numeric value of a digit string, as Python `int` on an all-digit string. -/
def digitsVal (ds : List Char) : Nat :=
  ds.foldl (fun a c => a * 10 + (c.toNat - 48)) 0

/-- The part of the amount regex after the optional dollar sign:
`\d+\s*(k)?` anchored at the current position — one-or-more digits (greedy),
optional whitespace, optional `k` suffix multiplying by 1000. -/
def amtCore (cs : List Char) : Option Nat :=
  match cs with
  | [] => none
  | c :: _ =>
    if c.isDigit then
      let ds := cs.takeWhile Char.isDigit
      let r2 := (cs.dropWhile Char.isDigit).dropWhile isSp
      some (if r2.head? = some 'k' then digitsVal ds * 1000 else digitsVal ds)
    else none

/-- The amount regex `(\$?\d+)\s*(k)?` anchored at the current position;
`int(m.group(1).lstrip("$"))`, times 1000 when group 2 matched. -/
def amt_match (cs : List Char) : Option Nat :=
  match cs with
  | '$' :: rest => amtCore rest
  | _ => amtCore cs

/-- `re.search`: return the result of `f` at the first position where it
matches, scanning left to right. -/
def searchFirst (f : List Char → Option Nat) : List Char → Option Nat
  | [] => f []
  | c :: cs =>
    match f (c :: cs) with
    | some v => some v
    | none => searchFirst f cs

/-- `text.lower().replace(",", "").strip()` — the normalization performed by
`parse_amount` before the regex search. -/
def normText (t : String) : List Char := trimList (stripCommas (lowerList t.data))

/-- `parse_amount` (`app.py`, lines 48-59): guard on empty text, normalize,
then `re.search(r'(\$?\d+)\s*(k)?', t)` with the `k`-suffix multiplying
by 1000. -/
def parse_amount (t : String) : Option Nat :=
  if t = "" then none else searchFirst amt_match (normText t)

/-- Modelled from the spec claim for the amount parser, not from the source:
the strict pattern `\$?\d+[kK]?` in which the `k` suffix must immediately
follow the digits (no intervening whitespace), anchored at the current
position.  Compared against `amt_match`, which permits `\s*` before the
suffix. -/
def claimCore (cs : List Char) : Option Nat :=
  match cs with
  | [] => none
  | c :: _ =>
    if c.isDigit then
      let ds := cs.takeWhile Char.isDigit
      let r1 := cs.dropWhile Char.isDigit
      some (if r1.head? = some 'k' then digitsVal ds * 1000 else digitsVal ds)
    else none

/-- Modelled from the spec claim: optional `$` before `claimCore`. -/
def claim_match (cs : List Char) : Option Nat :=
  match cs with
  | '$' :: rest => claimCore rest
  | _ => claimCore cs

/-- Modelled from the spec claim: the value of the first match of
`\$?\d+[kK]?` on the normalized (lowercased, trimmed) text with commas
stripped, or none.  (On lowercased text the `K` alternative is the
`k` check.) -/
def claimParse (t : String) : Option Nat := searchFirst claim_match (normText t)

/-- `a in b` for strings: `needle` is a prefix of `hay`. -/
def isPrefixCL : List Char → List Char → Bool
  | [], _ => true
  | _ :: _, [] => false
  | a :: as, b :: bs => a == b && isPrefixCL as bs

/-- Python substring containment `needle in hay`. -/
def containsSub (hay needle : List Char) : Bool :=
  match hay with
  | [] => needle.isEmpty
  | _ :: t => isPrefixCL needle hay || containsSub t needle

/-- The fixed escalation keyword set `AUTO_ESCALATE` (`app.py`, lines 34-37). -/
def AUTO_ESCALATE : List String :=
  ["chargeback", "refund", "billing", "attorney", "lawyer",
   "levy", "lien", "garnish", "garnishment", "lawsuit", "complaint", "harassment"]

/-- `has_any` (`app.py`, lines 44-46): lowercase the text, then test whether
any keyword occurs as a substring. -/
def has_any (text : String) (keywords : List String) : Bool :=
  keywords.any (fun k => containsSub (lowerList text.data) k.data)

/-- `first_name` (`app.py`, lines 106-108): strip the name; empty gives
"there", otherwise the first whitespace-delimited token. -/
def first_name (name : String) : String :=
  let n := trimList name.data
  if n = [] then "there" else String.mk (n.takeWhile (fun c => !(isSp c)))

/-! ## A small regex interpreter for the detector patterns

The detector patterns of `app.py` use literals, `\s+`, `\s*`, optional
groups, alternation and word boundaries `\b`.  `RE` is exactly that
fragment; `matchRE` enumerates all ways a pattern can consume a prefix of
the input (each result is the last consumed character, needed for `\b`,
and the remaining input), and `searchRE` is `re.search`. -/

inductive RE where
  | eps : RE
  | ch (a : Char) : RE
  | cls (l : List Char) : RE
  | many (l : List Char) : RE
  | opt (r : RE) : RE
  | alt2 (a b : RE) : RE
  | seq2 (a b : RE) : RE
  | wb : RE
deriving Repr

/-- Python `\w` on ASCII: letters, digits, underscore. -/
def wordChar (c : Char) : Bool := c.isAlphanum || c == '_'

def isWordOpt : Option Char → Bool
  | none => false
  | some c => wordChar c

/-- `\b` holds between the previous character (none at the edges) and the
next one iff exactly one side is a word character. -/
def isBoundary (p : Option Char) (cs : List Char) : Bool :=
  isWordOpt p != isWordOpt cs.head?

/-- All states reachable by consuming zero or more characters of class `l`
(the nondeterministic semantics of `[l]*`). -/
def manyStates (l : List Char) (p : Option Char) (cs : List Char) :
    List (Option Char × List Char) :=
  (p, cs) ::
    (match cs with
     | [] => []
     | c :: rest => if c ∈ l then manyStates l (some c) rest else [])

def matchRE (r : RE) (p : Option Char) (cs : List Char) :
    List (Option Char × List Char) :=
  match r with
  | .eps => [(p, cs)]
  | .ch a =>
    match cs with
    | [] => []
    | c :: rest => if c = a then [(some c, rest)] else []
  | .cls l =>
    match cs with
    | [] => []
    | c :: rest => if c ∈ l then [(some c, rest)] else []
  | .many l => manyStates l p cs
  | .opt r' => matchRE r' p cs ++ [(p, cs)]
  | .alt2 a b => matchRE a p cs ++ matchRE b p cs
  | .seq2 a b => (matchRE a p cs).flatMap (fun st => matchRE b st.1 st.2)
  | .wb => if isBoundary p cs then [(p, cs)] else []

/-- `re.search(r, t)` succeeds iff `r` matches starting at some position. -/
def searchRE (r : RE) : Option Char → List Char → Bool
  | p, [] => !(matchRE r p []).isEmpty
  | p, c :: cs => !(matchRE r p (c :: cs)).isEmpty || searchRE r (some c) cs

def reSearch (r : RE) (cs : List Char) : Bool := searchRE r none cs

def rlit (s : String) : RE :=
  s.data.foldr (fun c r => RE.seq2 (RE.ch c) r) RE.eps

def rseq (l : List RE) : RE := l.foldr RE.seq2 RE.eps

/-- Empty alternation fails (`cls []` matches nothing). -/
def ralt (l : List RE) : RE := l.foldr RE.alt2 (RE.cls [])

def spaceCs : List Char := [' ', '\t', '\n', '\r', '\x0b', '\x0c']

/-- `\s+` -/
def rsp : RE := RE.seq2 (RE.cls spaceCs) (RE.many spaceCs)

/-- `\s*` -/
def rsps : RE := RE.many spaceCs

/-- The apostrophe character, used by the `haven't`/`didn't` patterns and
the escalation message. -/
def aposC : Char := Char.ofNat 39

def aposS : String := String.singleton aposC

/-- The patterns of `detect_unfiled` (`app.py`, lines 66-72). -/
def unfiledPats : List RE :=
  [ rseq [RE.wb, rlit "unfiled", RE.wb],
    rseq [RE.wb, rlit "missing", rsp, RE.opt (rseq [rlit "tax", rsp]),
          rlit "year", RE.opt (rlit "s"), RE.wb],
    rseq [RE.wb,
          ralt [rlit "not",
                rseq [rlit "haven", RE.opt (RE.ch aposC), rlit "t"],
                rseq [rlit "didn", RE.opt (RE.ch aposC), rlit "t"]],
          rsp, rlit "file", RE.opt (rlit "d"), RE.wb],
    rseq [RE.wb, rlit "behind", rsp, rlit "on", rsp, rlit "filing", RE.wb],
    rseq [RE.wb, rlit "back", rsp,
          ralt [rseq [rlit "return", RE.opt (rlit "s")],
                rseq [rlit "year", RE.opt (rlit "s")]],
          RE.wb] ]

/-- `detect_unfiled` (`app.py`, lines 61-73). -/
def detect_unfiled (text : String) : Bool :=
  if text = "" then false
  else unfiledPats.any (fun r => reSearch r (lowerList text.data))

/-- The patterns of `detect_no_unfiled` (`app.py`, lines 80-87). -/
def noUnfiledPats : List RE :=
  [ rseq [RE.wb, rlit "no", rsp, RE.opt (rseq [rlit "missing", rsp]),
          RE.opt (rseq [rlit "tax", rsp]), rlit "year", RE.opt (rlit "s"), RE.wb],
    rseq [RE.wb, rlit "all", rsp,
          ralt [rseq [rlit "return", RE.opt (rlit "s")],
                rseq [rlit "year", RE.opt (rlit "s")]],
          rsp, rlit "filed", RE.wb],
    rseq [RE.wb, rlit "up", rsps, rlit "to", rsps, rlit "date", rsp,
          rlit "on", rsp, rlit "filing", RE.wb],
    rseq [RE.wb, rlit "everything", rsp, rlit "is", rsp, rlit "filed", RE.wb],
    rseq [RE.wb, rlit "all", rsp, rlit "filed", RE.wb],
    rseq [RE.wb, rlit "current", rsp, rlit "on", rsp, rlit "filing", RE.wb] ]

/-- `detect_no_unfiled` (`app.py`, lines 75-88). -/
def detect_no_unfiled (text : String) : Bool :=
  if text = "" then false
  else noUnfiledPats.any (fun r => reSearch r (lowerList text.data))

/-- The patterns of `detect_state_issue` (`app.py`, lines 95-103). -/
def statePats : List RE :=
  [ rseq [RE.wb, rlit "state", rsp, rlit "tax", RE.opt (rlit "es"), RE.wb],
    rseq [RE.wb, rlit "department", rsp, rlit "of", rsp, rlit "revenue", RE.wb],
    rseq [RE.wb, rlit "dor", RE.wb],
    rseq [RE.wb, rlit "franchise", rsp, rlit "tax", rsp, rlit "board", RE.wb],
    rseq [RE.wb, rlit "ftb", RE.wb],
    rseq [RE.wb, rlit "edd", RE.wb],
    rseq [RE.wb, rlit "dtf", RE.wb] ]

/-- `detect_state_issue` (`app.py`, lines 90-104). -/
def detect_state_issue (text : String) : Bool :=
  if text = "" then false
  else statePats.any (fun r => reSearch r (lowerList text.data))

/-! ## The decision record and the ordered decision table

`Decision` carries the fields of the response dicts of `_build_response`
that vary between branches or depend on the input: `action`, `reply_text`,
`notes`, `route`, the escalation `suggested` message and the `qualified`
snapshot.  The per-branch constant metadata blocks (`workflow`, `handoff`,
`escalation.summary`, campaign names) are constants of the branch and are
omitted; each branch is identified by its unique `notes` tag. -/

structure Qualified where
  band : String
  amount : Option Int
  has_unfiled_years : String
  state_issue : String
deriving Repr, DecidableEq

structure Decision where
  action : String
  reply_text : Option String
  notes : String
  route : Option String
  escalation_suggested : Option String
  qualified : Qualified
deriving Repr, DecidableEq

/-- Configuration defaults (`app.py`, lines 21-24). -/
def DEBT_HIGH : Int := 8000

def SECONDARY_LOW : Int := 6000

def MID_APPT_LOW : Int := 5000

def MID_APPT_HIGH : Int := 7000

/-- `"yes" if detect_state_issue(text) else "unknown"` (`app.py`, line 142). -/
def state_flag (text : String) : String :=
  if detect_state_issue text then "yes" else "unknown"

/-- `amt_for_decision = amount if amount is not None else last_amount`
(`app.py`, line 151); `ctx` is the numeric `context.last_amount` if the
caller supplied one. -/
def amt_for_decision (text : String) (ctx : Option Int) : Option Int :=
  match parse_amount text with
  | some a => some (a : Int)
  | none => ctx

/-- `(amt_for_decision is not None) and (amt_for_decision < SECONDARY_LOW)`. -/
def under_low (a? : Option Int) : Bool :=
  match a? with
  | some a => a < SECONDARY_LOW
  | none => false

/-- The escalation branch record (`app.py`, lines 127-136). -/
def escalateDecision (name : String) : Decision :=
  { action := "escalate"
    reply_text := none
    notes := "auto_escalate_keyword"
    route := none
    escalation_suggested := some ("Hi " ++ first_name name ++ ", I" ++ aposS ++
      "m looping a specialist in now. What" ++ aposS ++
      "s the best number/time today?")
    qualified := { band := "unknown", amount := none,
                   has_unfiled_years := "unknown", state_issue := "unknown" } }

/-- The scripted IRS self-help message (`app.py`, lines 153-159),
personalized with the first name. -/
def selfHelpMsg (fn : String) : String :=
  "Hi " ++ fn ++ ", due to the amount you owe the fees for service may " ++
  "outweigh the savings. I recommend contacting the IRS directly and " ++
  "requesting a First-Time Penalty Abatement, then the Fresh Start " ++
  "Streamlined Installment Agreement. That will usually be the smallest " ++
  "payment without submitting full financials to the IRS with the best " ++
  "terms. Below is the IRS contact information (also on your latest " ++
  "notice). Thank you.\n\nwww.irs.gov\n800-829-1040"

/-- The self-help disqualify branch record (`app.py`, lines 160-169). -/
def selfHelpDecision (name : String) (amt : Option Int) (flag : String) : Decision :=
  { action := "reply"
    reply_text := some (selfHelpMsg (first_name name))
    notes := "disqualify_self_help"
    route := some "irs_self_help"
    escalation_suggested := none
    qualified := { band := "under_secondary", amount := amt,
                   has_unfiled_years := "no", state_issue := flag } }

/-- The over-threshold branch record (`app.py`, lines 175-187). -/
def overDecision (a : Nat) (flag : String) : Decision :=
  { action := "qualified"
    reply_text := some ("Great, thanks - we will get you scheduled now to " ++
      "review options, including IRS Fresh Start savings programs, and " ++
      "check any state issues if that applies.")
    notes := "auto_qualified_by_amount"
    route := some "woo_booking"
    escalation_suggested := none
    qualified := { band := "over_threshold", amount := some (a : Int),
                   has_unfiled_years := "unknown", state_issue := flag } }

/-- The mid-band-with-unfiled branch record (`app.py`, lines 191-203). -/
def midUnfiledDecision (a : Nat) (flag : String) : Decision :=
  { action := "qualified"
    reply_text := some ("Got it - we will get you scheduled now to review " ++
      "options, including IRS Fresh Start savings programs, and any state " ++
      "issues if that applies.")
    notes := "qualified_mid_with_unfiled"
    route := some "woo_booking"
    escalation_suggested := none
    qualified := { band := "mid_with_unfiled", amount := some (a : Int),
                   has_unfiled_years := "yes", state_issue := flag } }

/-- The under-secondary follow-up branch record (`app.py`, lines 207-212). -/
def underSecondaryDecision (a : Nat) (flag : String) : Decision :=
  { action := "reply"
    reply_text := some ("Thanks. Do you have any missing tax years that " ++
      "need to be filed? - Gene, Lexington Tax Group")
    notes := "followup_missing_years_under_threshold"
    route := none
    escalation_suggested := none
    qualified := { band := "under_secondary", amount := some (a : Int),
                   has_unfiled_years := "unknown", state_issue := flag } }

/-- The mid-band fallback branch record (`app.py`, lines 215-227). -/
def midBandDecision (a : Nat) (flag : String) : Decision :=
  { action := "reply"
    reply_text := some ("Thanks for the details - we will get you scheduled " ++
      "for a quick 10-minute call to review options, including IRS Fresh " ++
      "Start savings programs, and any state issues if that applies.")
    notes := "mid_band_send_booking"
    route := some "woo_booking"
    escalation_suggested := none
    qualified := { band := "mid_band", amount := some (a : Int),
                   has_unfiled_years := "unknown", state_issue := flag } }

/-- The default-clarify branch record (`app.py`, lines 230-239). -/
def clarifyDecision : Decision :=
  { action := "reply"
    reply_text := some ("Thanks for the note. Quick check: how much does " ++
      "the IRS say you owe, and do you have any missing tax years that " ++
      "need to be filed? We can also discuss IRS Fresh Start savings " ++
      "options and any state issues if that applies. - Gene, Lexington " ++
      "Tax Group")
    notes := "primary_clarify"
    route := none
    escalation_suggested := none
    qualified := { band := "unknown", amount := none,
                   has_unfiled_years := "unknown", state_issue := "unknown" } }

/-- `_build_response` (`app.py`, lines 124-239): the ordered decision table.
Branch order is that of the source: escalation keywords, then the self-help
disqualify on the effective amount, then the amount-aware rules on the
current-message amount only, then default clarify.  `ctx` is the numeric
`context.last_amount` if the caller supplied one. -/
def build_response (text name : String) (ctx : Option Int) : Decision :=
  if has_any text AUTO_ESCALATE = true then
    escalateDecision name
  else if under_low (amt_for_decision text ctx) = true ∧ detect_no_unfiled text = true then
    selfHelpDecision name (amt_for_decision text ctx) (state_flag text)
  else
    match parse_amount text with
    | some a =>
      if DEBT_HIGH ≤ (a : Int) then overDecision a (state_flag text)
      else if MID_APPT_LOW ≤ (a : Int) ∧ (a : Int) ≤ MID_APPT_HIGH ∧ detect_unfiled text = true then
        midUnfiledDecision a (state_flag text)
      else if (a : Int) < SECONDARY_LOW then underSecondaryDecision a (state_flag text)
      else midBandDecision a (state_flag text)
    | none => clarifyDecision

/-! ## Helper lemmas -/

theorem amt_match_cons_ne_dollar (c : Char) (cs : List Char) (h : c ≠ '$') :
    amt_match (c :: cs) = amtCore (c :: cs) := by
  unfold amt_match
  split
  · rename_i heq
    injection heq with h1 _
    exact absurd h1 h
  · rfl

theorem isDigit_lowerChar (c : Char) : (lowerChar c).isDigit = c.isDigit := by
  unfold lowerChar
  split <;> rfl

theorem isSp_not_digit (c : Char) (h : isSp c = true) : c.isDigit = false := by
  simp only [isSp, Bool.or_eq_true, beq_iff_eq] at h
  rcases h with ((((h | h) | h) | h) | h) | h <;> subst h <;> rfl

theorem all_nondig_lower (cs : List Char) :
    ((lowerList cs).all fun c => !c.isDigit) = (cs.all fun c => !c.isDigit) := by
  induction cs with
  | nil => rfl
  | cons c cs ih =>
    simp only [lowerList, List.map_cons, List.all_cons, isDigit_lowerChar]
    rw [show (List.map lowerChar cs).all (fun c => !c.isDigit)
          = (lowerList cs).all (fun c => !c.isDigit) from rfl, ih]

theorem all_nondig_stripCommas (cs : List Char) :
    ((stripCommas cs).all fun c => !c.isDigit) = (cs.all fun c => !c.isDigit) := by
  induction cs with
  | nil => rfl
  | cons c cs ih =>
    by_cases h : c = ','
    · subst h
      simp only [stripCommas, List.filter_cons]
      rw [if_neg (by decide)]
      rw [show List.filter (fun c => c != ',') cs = stripCommas cs from rfl, ih,
          List.all_cons, show ((!(',').isDigit) = true) from rfl, Bool.true_and]
    · simp only [stripCommas, List.filter_cons, List.all_cons]
      rw [if_pos (by simpa using h)]
      simp only [List.all_cons]
      rw [show List.filter (fun c => c != ',') cs = stripCommas cs from rfl, ih]

theorem all_nondig_dropWhile_sp (cs : List Char) :
    ((cs.dropWhile isSp).all fun c => !c.isDigit) = (cs.all fun c => !c.isDigit) := by
  induction cs with
  | nil => rfl
  | cons c cs ih =>
    by_cases h : isSp c = true
    · rw [List.dropWhile_cons_of_pos h, ih]
      simp [isSp_not_digit c h]
    · rw [List.dropWhile_cons_of_neg (by simpa using h)]

theorem all_nondig_reverse (cs : List Char) :
    (cs.reverse.all fun c => !c.isDigit) = (cs.all fun c => !c.isDigit) := by
  induction cs with
  | nil => rfl
  | cons c cs ih => simp [List.all_append, ih, Bool.and_comm]

theorem all_nondig_trim (cs : List Char) :
    ((trimList cs).all fun c => !c.isDigit) = (cs.all fun c => !c.isDigit) := by
  unfold trimList
  rw [all_nondig_reverse, all_nondig_dropWhile_sp, all_nondig_reverse,
      all_nondig_dropWhile_sp]

theorem all_nondig_normText (t : String) :
    ((normText t).all fun c => !c.isDigit) = (t.data.all fun c => !c.isDigit) := by
  unfold normText
  rw [all_nondig_trim, all_nondig_stripCommas, all_nondig_lower]

theorem amtCore_of_digit (c : Char) (cs : List Char) (h : c.isDigit = true) :
    amtCore (c :: cs) =
      some (if (((c :: cs).dropWhile Char.isDigit).dropWhile isSp).head? = some 'k'
            then digitsVal ((c :: cs).takeWhile Char.isDigit) * 1000
            else digitsVal ((c :: cs).takeWhile Char.isDigit)) := by
  simp [amtCore, h]

theorem amtCore_of_not_digit (c : Char) (cs : List Char) (h : c.isDigit = false) :
    amtCore (c :: cs) = none := by
  simp [amtCore, h]

theorem digit_ne_dollar (c : Char) (h : c.isDigit = true) : c ≠ '$' := by
  intro he
  subst he
  exact absurd h (by decide)

theorem searchFirst_amt_none_iff (cs : List Char) :
    searchFirst amt_match cs = none ↔ (cs.all fun c => !c.isDigit) = true := by
  induction cs with
  | nil => simp [searchFirst, amt_match, amtCore]
  | cons c cs ih =>
    by_cases hd : c.isDigit = true
    · have hm : amt_match (c :: cs) = amtCore (c :: cs) :=
        amt_match_cons_ne_dollar c cs (digit_ne_dollar c hd)
      rw [searchFirst, hm, amtCore_of_digit c cs hd]
      simp [hd]
    · have hd' : c.isDigit = false := by simpa using hd
      by_cases hc : c = '$'
      · subst hc
        cases cs with
        | nil => simp [searchFirst, amt_match, amtCore]
        | cons d ds =>
          by_cases hdd : d.isDigit = true
          · rw [searchFirst]
            rw [show amt_match ('$' :: d :: ds) = amtCore (d :: ds) from rfl,
                amtCore_of_digit d ds hdd]
            simp [hdd]
          · have hdd' : d.isDigit = false := by simpa using hdd
            rw [searchFirst]
            rw [show amt_match ('$' :: d :: ds) = amtCore (d :: ds) from rfl,
                amtCore_of_not_digit d ds hdd']
            rw [ih]
            simp
      · have hm : amt_match (c :: cs) = amtCore (c :: cs) :=
          amt_match_cons_ne_dollar c cs hc
        rw [searchFirst, hm, amtCore_of_not_digit c cs hd', ih]
        simp [hd']

theorem searchFirst_eq_some_iff (f : List Char → Option Nat) (cs : List Char)
    (v : Nat) :
    searchFirst f cs = some v ↔
      ∃ i, f (cs.drop i) = some v ∧ ∀ j, j < i → f (cs.drop j) = none := by
  induction cs with
  | nil =>
    rw [searchFirst]
    constructor
    · intro h
      exact ⟨0, by simpa using h, by intro j hj; omega⟩
    · rintro ⟨i, hi, _⟩
      simpa [List.drop_nil] using hi
  | cons c cs ih =>
    rw [searchFirst]
    cases hf : f (c :: cs) with
    | some w =>
      constructor
      · intro h
        exact ⟨0, by simpa using hf.trans h, by intro j hj; omega⟩
      · rintro ⟨i, hi, hlt⟩
        cases i with
        | zero => simpa [hf] using hi
        | succ i' =>
          have h0 := hlt 0 (by omega)
          rw [List.drop_zero, hf] at h0
          cases h0
    | none =>
      rw [ih]
      constructor
      · rintro ⟨i, hi, hlt⟩
        refine ⟨i + 1, by simpa using hi, ?_⟩
        intro j hj
        cases j with
        | zero => simpa using hf
        | succ j' => simpa using hlt j' (by omega)
      · rintro ⟨i, hi, hlt⟩
        cases i with
        | zero =>
          rw [List.drop_zero, hf] at hi
          cases hi
        | succ i' =>
          refine ⟨i', by simpa using hi, ?_⟩
          intro j hj
          simpa using hlt (j + 1) (by omega)

theorem parse_amount_none_iff (t : String) :
    parse_amount t = none ↔ (t.data.all fun c => !c.isDigit) = true := by
  by_cases h : t = ""
  · subst h
    exact ⟨fun _ => by decide, fun _ => rfl⟩
  · rw [parse_amount, if_neg h, searchFirst_amt_none_iff, all_nondig_normText]

/-- Claim C2: for every input text containing an escalation keyword of
`AUTO_ESCALATE` as a case-insensitive substring, the engine returns
`action = escalate` with `reply_text = none`, regardless of the rest of the
input (any amount, context amount, or filing phrase). -/
theorem C2_escalation_dominates (t n : String) (c : Option Int)
    (h : has_any t AUTO_ESCALATE = true) :
    (build_response t n c).action = "escalate" ∧
    (build_response t n c).reply_text = none := by
  rw [build_response, if_pos h]
  exact ⟨rfl, rfl⟩

/-- Witness for C2: a message containing "REFUND" together with an amount, a
context amount and a filing phrase still escalates with a null reply. -/
theorem C2_witness :
    has_any "I want a REFUND of $9000, I have unfiled years" AUTO_ESCALATE = true ∧
    (build_response "I want a REFUND of $9000, I have unfiled years" "Ann Smith"
        (some 4000)).action = "escalate" ∧
    (build_response "I want a REFUND of $9000, I have unfiled years" "Ann Smith"
        (some 4000)).reply_text = none :=
  ⟨by decide,
   C2_escalation_dominates "I want a REFUND of $9000, I have unfiled years"
     "Ann Smith" (some 4000) (by decide)⟩

/-- Counterexample for C3: the claimed pattern requires the `k`/`K` suffix to
immediately trail the digits, but the code's regex `(\$?\d+)\s*(k)?` permits
whitespace before the suffix: on "12 k" the code returns 12000 while the
first match of the claimed pattern has value 12. -/
theorem C3_counterexample :
    parse_amount "12 k" = some 12000 ∧ claimParse "12 k" = some 12 ∧
    parse_amount "12 k" ≠ claimParse "12 k" := by decide

/-- Claim C3 (amended): the amount parser returns the integer value of the
first match of an optional `$`, one or more digits, and an optional `k`/`K`
suffix possibly separated from the digits by whitespace (commas stripped,
value multiplied by 1000 when the suffix is present), and returns none
exactly when the text contains no digit; the documented examples hold and
only the first match is used.  `amt_match` is the anchored pattern and the
first conjunct states the first-match contract of the scan. -/
theorem C3_amount_parser_amended :
    (∀ t v, parse_amount t = some v ↔
       ∃ i, amt_match ((normText t).drop i) = some v ∧
            ∀ j, j < i → amt_match ((normText t).drop j) = none)
  ∧ (∀ t, parse_amount t = none ↔ (t.data.all fun c => !c.isDigit) = true)
  ∧ parse_amount "12000" = some 12000
  ∧ parse_amount "12,000" = some 12000
  ∧ parse_amount "12k" = some 12000
  ∧ parse_amount "$12k" = some 12000
  ∧ parse_amount "$12,000" = some 12000
  ∧ parse_amount "12 k" = some 12000
  ∧ parse_amount "no digits at all" = none
  ∧ parse_amount "between 5k and 7k" = some 5000 := by
  refine ⟨?_, parse_amount_none_iff, by decide, by decide, by decide, by decide,
    by decide, by decide, by decide, by decide⟩
  intro t v
  by_cases h : t = ""
  · subst h
    constructor
    · intro hp
      exact Option.noConfusion (show (none : Option Nat) = some v from hp)
    · rintro ⟨i, hi, _⟩
      rw [show normText "" = [] from rfl, List.drop_nil] at hi
      exact Option.noConfusion (show (none : Option Nat) = some v from hi)
  · rw [parse_amount, if_neg h]
    exact searchFirst_eq_some_iff amt_match (normText t) v

/-- Claim C9: a missing or empty message text is not an error: the engine
returns the default-clarify decision (action = reply,
notes = primary_clarify, band = unknown), whatever the name and context. -/
theorem C9_empty_text_clarifies (n : String) (c : Option Int) :
    build_response "" n c = clarifyDecision := by
  rw [build_response,
      if_neg (show ¬(has_any "" AUTO_ESCALATE = true) by decide),
      if_neg (show ¬(under_low (amt_for_decision "" c) = true ∧
          detect_no_unfiled "" = true) from fun h => absurd h.2 (by decide))]
  rfl

/-- Claim C10: the engine is deterministic — two invocations on identical
input (message text, sender name, context amount) produce identical decision
records; `build_response` is a pure function of its three arguments. -/
theorem C10_deterministic (t t' n n' : String) (c c' : Option Int)
    (h1 : t = t') (h2 : n = n') (h3 : c = c') :
    build_response t n c = build_response t' n' c' := by
  subst h1
  subst h2
  subst h3
  rfl

/-- Witness for C10 at a concrete input. -/
theorem C10_witness :
    build_response "i owe 7000, state tax" "Ann" (some 3) =
      build_response "i owe 7000, state tax" "Ann" (some 3) :=
  C10_deterministic "i owe 7000, state tax" "i owe 7000, state tax"
    "Ann" "Ann" (some 3) (some 3) rfl rfl rfl

/-- Counterexample for C1: the text "refund" yields no parsed amount and no
context amount was supplied, yet the decision is the escalate branch, not
default clarify — the claimed equivalence fails. -/
theorem C1_counterexample :
    ¬((build_response "refund" "" none = clarifyDecision) ↔
      (parse_amount "refund" = none ∧ (none : Option Int) = none)) := by decide

/-- Claim C1 (amended): the engine returns the default-clarify decision iff
no escalation keyword matches, the current message yields no parsed amount,
and the self-help branch does not fire (it is not the case that the
effective amount — here necessarily the context amount — is below
`SECONDARY_LOW` with the no-unfiled detector true). -/
theorem C1_default_clarify_iff (t n : String) (c : Option Int) :
    build_response t n c = clarifyDecision ↔
      (has_any t AUTO_ESCALATE = false ∧ parse_amount t = none ∧
       ¬(under_low (amt_for_decision t c) = true ∧
         detect_no_unfiled t = true)) := by
  rw [build_response]
  by_cases hE : has_any t AUTO_ESCALATE = true
  · rw [if_pos hE]
    constructor
    · intro h
      have hr := congrArg Decision.reply_text h
      simp [escalateDecision, clarifyDecision] at hr
    · rintro ⟨h1, _, _⟩
      rw [hE] at h1
      cases h1
  · rw [if_neg hE]
    have hE' : has_any t AUTO_ESCALATE = false := by simpa using hE
    by_cases hS : under_low (amt_for_decision t c) = true ∧
        detect_no_unfiled t = true
    · rw [if_pos hS]
      constructor
      · intro h
        have hr := congrArg Decision.route h
        simp [selfHelpDecision, clarifyDecision] at hr
      · rintro ⟨_, _, h3⟩
        exact absurd hS h3
    · rw [if_neg hS]
      cases hP : parse_amount t with
      | some a =>
        dsimp only
        constructor
        · intro h
          exfalso
          split_ifs at h <;>
            exact Option.noConfusion
              (show some ((a : Nat) : Int) = (none : Option Int) from
                congrArg (fun d => d.qualified.amount) h)
        · rintro ⟨_, h2, _⟩
          exact Option.noConfusion h2
      | none =>
        exact ⟨fun _ => ⟨hE', rfl, hS⟩, fun _ => rfl⟩

/-- Counterexample for C5: a request whose effective amount 4000 is below
`SECONDARY_LOW` and whose no-unfiled detector is true, but whose text also
contains the escalation keyword "refund": the engine escalates instead of
returning the self-help reply. -/
theorem C5_counterexample :
    amt_for_decision "refund, i owe 4000, all filed" none = some 4000 ∧
    (4000 : Int) < SECONDARY_LOW ∧
    detect_no_unfiled "refund, i owe 4000, all filed" = true ∧
    (build_response "refund, i owe 4000, all filed" "Ann" none).action ≠ "reply" ∧
    (build_response "refund, i owe 4000, all filed" "Ann" none).notes ≠
      "disqualify_self_help" := by decide

/-- Claim C5 (amended): for every request containing no escalation keyword
whose effective amount is known and strictly below `SECONDARY_LOW` and whose
no-unfiled detector is true, the engine returns the self-help decision —
action = reply, notes = disqualify_self_help, band = under_secondary,
has_unfiled_years = no, with the name-personalized self-help message — and
the unfiled detector is not consulted, so this holds even when it matches
the same text. -/
theorem C5_self_help_amended (t n : String) (c : Option Int) (a : Int)
    (hE : has_any t AUTO_ESCALATE = false)
    (hA : amt_for_decision t c = some a)
    (hLt : a < SECONDARY_LOW)
    (hN : detect_no_unfiled t = true) :
    build_response t n c = selfHelpDecision n (some a) (state_flag t) := by
  have hu : under_low (amt_for_decision t c) = true := by
    rw [hA]
    simpa [under_low] using hLt
  rw [build_response, if_neg (show ¬(has_any t AUTO_ESCALATE = true) by simp [hE]),
      if_pos ⟨hu, hN⟩, hA]

/-- Witness for C5: a text with amount 4000 on which the no-unfiled and the
unfiled detector both match ("all filed", "unfiled") takes the self-help
branch. -/
theorem C5_witness :
    has_any "i owe 4000, all filed but some unfiled back years"
        AUTO_ESCALATE = false ∧
    amt_for_decision "i owe 4000, all filed but some unfiled back years"
        none = some 4000 ∧
    (4000 : Int) < SECONDARY_LOW ∧
    detect_no_unfiled "i owe 4000, all filed but some unfiled back years" = true ∧
    detect_unfiled "i owe 4000, all filed but some unfiled back years" = true ∧
    build_response "i owe 4000, all filed but some unfiled back years"
        "Bob Jones" none =
      selfHelpDecision "Bob Jones" (some 4000)
        (state_flag "i owe 4000, all filed but some unfiled back years") :=
  ⟨by decide, by decide, by decide, by decide, by decide,
   C5_self_help_amended "i owe 4000, all filed but some unfiled back years"
     "Bob Jones" none 4000 (by decide) (by decide) (by decide) (by decide)⟩

/-- Claim C4: under the default configuration the threshold boundaries fall
on the documented sides and the table is evaluated in strict order, first
match wins: a current-message amount of exactly `DEBT_HIGH = 8000` yields a
qualified over-threshold decision; the self-help and follow-up branches only
ever fire with an amount strictly below `SECONDARY_LOW = 6000`; and for an
amount in the inclusive mid band `[MID_APPT_LOW, MID_APPT_HIGH] = [5000,
7000]` with the unfiled detector true (and the earlier rules not firing),
the mid-with-unfiled qualified rule fires before the under-secondary reply
rule, even when the amount is also below `SECONDARY_LOW`. -/
theorem C4_threshold_boundaries :
    (∀ t n c, has_any t AUTO_ESCALATE = false → parse_amount t = some 8000 →
       (build_response t n c).action = "qualified" ∧
       (build_response t n c).qualified.band = "over_threshold")
  ∧ (∀ t n c, (build_response t n c).notes = "disqualify_self_help" →
       ∃ a : Int, (build_response t n c).qualified.amount = some a ∧
         a < SECONDARY_LOW)
  ∧ (∀ t n c, (build_response t n c).notes =
        "followup_missing_years_under_threshold" →
       ∃ a : Int, (build_response t n c).qualified.amount = some a ∧
         a < SECONDARY_LOW)
  ∧ (∀ t n c (a : Nat), has_any t AUTO_ESCALATE = false →
       parse_amount t = some a →
       MID_APPT_LOW ≤ (a : Int) → (a : Int) ≤ MID_APPT_HIGH →
       detect_unfiled t = true → detect_no_unfiled t = false →
       (build_response t n c).action = "qualified" ∧
       (build_response t n c).qualified.band = "mid_with_unfiled") := by
  refine ⟨?_, ?_, ?_, ?_⟩
  · intro t n c hE hP
    have hAf : amt_for_decision t c = some 8000 := by
      simp [amt_for_decision, hP]
    have h2 : ¬(under_low (amt_for_decision t c) = true ∧
        detect_no_unfiled t = true) := by
      rw [hAf]
      rintro ⟨h, _⟩
      exact absurd h (by decide)
    rw [build_response, if_neg (show ¬(has_any t AUTO_ESCALATE = true) by
          simp [hE]), if_neg h2, hP]
    dsimp only
    rw [if_pos (show DEBT_HIGH ≤ ((8000 : Nat) : Int) by decide)]
    exact ⟨rfl, rfl⟩
  · intro t n c h
    rw [build_response] at h ⊢
    by_cases hE : has_any t AUTO_ESCALATE = true
    · rw [if_pos hE] at h ⊢
      exact absurd (show ("auto_escalate_keyword" : String) =
        "disqualify_self_help" from h) (by decide)
    · rw [if_neg hE] at h ⊢
      by_cases hS : under_low (amt_for_decision t c) = true ∧
          detect_no_unfiled t = true
      · rw [if_pos hS] at h ⊢
        obtain ⟨h1, _⟩ := hS
        cases hAf : amt_for_decision t c with
        | none =>
          rw [hAf] at h1
          exact absurd h1 (by decide)
        | some a =>
          refine ⟨a, rfl, ?_⟩
          rw [hAf] at h1
          simpa [under_low] using h1
      · rw [if_neg hS] at h ⊢
        cases hP : parse_amount t with
        | none =>
          rw [hP] at h
          exact absurd (show ("primary_clarify" : String) =
            "disqualify_self_help" from h) (by decide)
        | some a =>
          exfalso
          rw [hP] at h
          dsimp only at h
          split_ifs at h <;>
            first
            | exact absurd (show ("auto_qualified_by_amount" : String) =
                "disqualify_self_help" from h) (by decide)
            | exact absurd (show ("qualified_mid_with_unfiled" : String) =
                "disqualify_self_help" from h) (by decide)
            | exact absurd (show ("followup_missing_years_under_threshold" :
                String) = "disqualify_self_help" from h) (by decide)
            | exact absurd (show ("mid_band_send_booking" : String) =
                "disqualify_self_help" from h) (by decide)
  · intro t n c h
    rw [build_response] at h ⊢
    by_cases hE : has_any t AUTO_ESCALATE = true
    · rw [if_pos hE] at h ⊢
      exact absurd (show ("auto_escalate_keyword" : String) =
        "followup_missing_years_under_threshold" from h) (by decide)
    · rw [if_neg hE] at h ⊢
      by_cases hS : under_low (amt_for_decision t c) = true ∧
          detect_no_unfiled t = true
      · rw [if_pos hS] at h ⊢
        exact absurd (show ("disqualify_self_help" : String) =
          "followup_missing_years_under_threshold" from h) (by decide)
      · rw [if_neg hS] at h ⊢
        cases hP : parse_amount t with
        | none =>
          rw [hP] at h
          exact absurd (show ("primary_clarify" : String) =
            "followup_missing_years_under_threshold" from h) (by decide)
        | some a =>
          rw [hP] at h
          dsimp only at h ⊢
          split_ifs at h ⊢ with g1 g2 g3
          · exact absurd (show ("auto_qualified_by_amount" : String) =
              "followup_missing_years_under_threshold" from h) (by decide)
          · exact absurd (show ("qualified_mid_with_unfiled" : String) =
              "followup_missing_years_under_threshold" from h) (by decide)
          · exact ⟨(a : Int), rfl, g3⟩
          · exact absurd (show ("mid_band_send_booking" : String) =
              "followup_missing_years_under_threshold" from h) (by decide)
  · intro t n c a hE hP h1 h2 hU hN
    have h2' : ¬(under_low (amt_for_decision t c) = true ∧
        detect_no_unfiled t = true) := fun hh => absurd hh.2 (by simp [hN])
    rw [build_response, if_neg (show ¬(has_any t AUTO_ESCALATE = true) by
          simp [hE]), if_neg h2', hP]
    dsimp only
    have hng : ¬(DEBT_HIGH ≤ ((a : Nat) : Int)) := by
      simp only [DEBT_HIGH]
      simp only [MID_APPT_HIGH] at h2
      omega
    rw [if_neg hng, if_pos ⟨h1, h2, hU⟩]
    exact ⟨rfl, rfl⟩

/-- Witness for C4: the amount exactly 8000 auto-qualifies over threshold,
and the amount 5000 (inside the mid band, below `SECONDARY_LOW`) with an
unfiled phrase qualifies as mid-with-unfiled rather than taking the
under-secondary reply. -/
theorem C4_witness :
    (has_any "i owe 8000" AUTO_ESCALATE = false ∧
     parse_amount "i owe 8000" = some 8000 ∧
     ((build_response "i owe 8000" "Ann" none).action = "qualified" ∧
      (build_response "i owe 8000" "Ann" none).qualified.band =
        "over_threshold")) ∧
    (has_any "i owe 5000 with unfiled years" AUTO_ESCALATE = false ∧
     parse_amount "i owe 5000 with unfiled years" = some 5000 ∧
     detect_unfiled "i owe 5000 with unfiled years" = true ∧
     detect_no_unfiled "i owe 5000 with unfiled years" = false ∧
     (5000 : Int) < SECONDARY_LOW ∧
     ((build_response "i owe 5000 with unfiled years" "Ann" none).action =
        "qualified" ∧
      (build_response "i owe 5000 with unfiled years" "Ann" none).qualified.band =
        "mid_with_unfiled")) :=
  ⟨⟨by decide, by decide,
    C4_threshold_boundaries.1 "i owe 8000" "Ann" none (by decide) (by decide)⟩,
   ⟨by decide, by decide, by decide, by decide, by decide,
    C4_threshold_boundaries.2.2.2 "i owe 5000 with unfiled years" "Ann" none
      5000 (by decide) (by decide) (by decide) (by decide) (by decide)
      (by decide)⟩⟩

theorem state_flag_ne_no (t : String) : state_flag t ≠ "no" := by
  unfold state_flag
  split <;> decide

/-- Claim C6: every decision branch returns `state_issue` equal to the
state-issue detector result on the input text ("yes" if any state-authority
pattern matches, else "unknown", never "no"), except the terminal escalate
branch and the default-clarify branch — the path on which no amount was
detected — which always return "unknown".  The two exceptional branches are
identified by their `notes` tags. -/
theorem C6_state_issue_propagation (t n : String) (c : Option Int) :
    ((build_response t n c).qualified.state_issue =
      if (build_response t n c).notes = "auto_escalate_keyword" ∨
         (build_response t n c).notes = "primary_clarify"
      then "unknown"
      else if detect_state_issue t = true then "yes" else "unknown")
  ∧ (build_response t n c).qualified.state_issue ≠ "no" := by
  rw [build_response]
  by_cases hE : has_any t AUTO_ESCALATE = true
  · rw [if_pos hE]
    simp [escalateDecision]
  · rw [if_neg hE]
    by_cases hS : under_low (amt_for_decision t c) = true ∧
        detect_no_unfiled t = true
    · rw [if_pos hS]
      refine ⟨?_, state_flag_ne_no t⟩
      simp [selfHelpDecision, state_flag]
    · rw [if_neg hS]
      cases hP : parse_amount t with
      | none => simp [clarifyDecision]
      | some a =>
        dsimp only
        by_cases g1 : DEBT_HIGH ≤ (a : Int)
        · rw [if_pos g1]
          refine ⟨?_, state_flag_ne_no t⟩
          simp [overDecision, state_flag]
        · rw [if_neg g1]
          by_cases g2 : MID_APPT_LOW ≤ (a : Int) ∧ (a : Int) ≤ MID_APPT_HIGH ∧
              detect_unfiled t = true
          · rw [if_pos g2]
            refine ⟨?_, state_flag_ne_no t⟩
            simp [midUnfiledDecision, state_flag]
          · rw [if_neg g2]
            by_cases g3 : (a : Int) < SECONDARY_LOW
            · rw [if_pos g3]
              refine ⟨?_, state_flag_ne_no t⟩
              simp [underSecondaryDecision, state_flag]
            · rw [if_neg g3]
              refine ⟨?_, state_flag_ne_no t⟩
              simp [midBandDecision, state_flag]

/-- Claim C7: a decision is qualified only when the current message itself
yields a parsed amount that is at/above `DEBT_HIGH` or lies in the inclusive
mid band with the unfiled detector true (so a context amount alone never
qualifies), and the context amount can influence the output only through the
self-help-disqualify branch: two runs differing only in context and neither
taking the self-help branch produce identical decisions. -/
theorem C7_qualified_requires_message_amount :
    (∀ t n c, (build_response t n c).action = "qualified" →
       ∃ a : Nat, parse_amount t = some a ∧
         (DEBT_HIGH ≤ (a : Int) ∨
          (MID_APPT_LOW ≤ (a : Int) ∧ (a : Int) ≤ MID_APPT_HIGH ∧
           detect_unfiled t = true)))
  ∧ (∀ t n c₁ c₂,
       (build_response t n c₁).notes ≠ "disqualify_self_help" →
       (build_response t n c₂).notes ≠ "disqualify_self_help" →
       build_response t n c₁ = build_response t n c₂) := by
  constructor
  · intro t n c h
    rw [build_response] at h
    by_cases hE : has_any t AUTO_ESCALATE = true
    · rw [if_pos hE] at h
      exact absurd (show ("escalate" : String) = "qualified" from h) (by decide)
    · rw [if_neg hE] at h
      by_cases hS : under_low (amt_for_decision t c) = true ∧
          detect_no_unfiled t = true
      · rw [if_pos hS] at h
        exact absurd (show ("reply" : String) = "qualified" from h) (by decide)
      · rw [if_neg hS] at h
        cases hP : parse_amount t with
        | none =>
          rw [hP] at h
          exact absurd (show ("reply" : String) = "qualified" from h) (by decide)
        | some a =>
          rw [hP] at h
          dsimp only at h
          split_ifs at h with g1 g2 g3
          · exact ⟨a, rfl, Or.inl g1⟩
          · exact ⟨a, rfl, Or.inr g2⟩
          · exact absurd (show ("reply" : String) = "qualified" from h)
              (by decide)
          · exact absurd (show ("reply" : String) = "qualified" from h)
              (by decide)
  · intro t n c₁ c₂ h1 h2
    unfold build_response at h1 h2 ⊢
    by_cases hE : has_any t AUTO_ESCALATE = true
    · simp [hE]
    · have hEf : has_any t AUTO_ESCALATE = false := by simpa using hE
      cases hP : parse_amount t with
      | some a =>
        have e1 : amt_for_decision t c₁ = some (a : Int) := by
          simp [amt_for_decision, hP]
        have e2 : amt_for_decision t c₂ = some (a : Int) := by
          simp [amt_for_decision, hP]
        simp [hEf, e1, e2, hP]
      | none =>
        have e1 : amt_for_decision t c₁ = c₁ := by
          simp [amt_for_decision, hP]
        have e2 : amt_for_decision t c₂ = c₂ := by
          simp [amt_for_decision, hP]
        by_cases hS1 : under_low (amt_for_decision t c₁) = true ∧
            detect_no_unfiled t = true
        · rw [if_neg (by simp [hEf]), if_pos hS1] at h1
          exact absurd rfl h1
        · by_cases hS2 : under_low (amt_for_decision t c₂) = true ∧
              detect_no_unfiled t = true
          · rw [if_neg (by simp [hEf]), if_pos hS2] at h2
            exact absurd rfl h2
          · simp [hEf, hP, hS1, hS2]

/-- Witness for C7: a qualified decision produced by a message amount. -/
theorem C7_witness :
    (build_response "i owe $9k" "Ann" (some 100)).action = "qualified" ∧
    ∃ a : Nat, parse_amount "i owe $9k" = some a ∧
      (DEBT_HIGH ≤ (a : Int) ∨
       (MID_APPT_LOW ≤ (a : Int) ∧ (a : Int) ≤ MID_APPT_HIGH ∧
        detect_unfiled "i owe $9k" = true)) :=
  ⟨by decide,
   C7_qualified_requires_message_amount.1 "i owe $9k" "Ann" (some 100)
     (by decide)⟩

set_option maxRecDepth 8192 in
/-- Claim C8: the decision's `reply_text` is null iff the decision is the
escalate branch; every reply and qualified branch carries a non-null
scripted message; personalization uses the first whitespace-delimited token
of the supplied sender name, defaulting to "there" when no (or a blank) name
is given — witnessed concretely by `first_name` and by the personalized
escalation suggestion and self-help reply. -/
theorem C8_reply_text_null_iff_escalate :
    (∀ t n c, (build_response t n c).reply_text = none ↔
       (build_response t n c).action = "escalate")
  ∧ first_name "" = "there"
  ∧ first_name "   " = "there"
  ∧ first_name "  Ann Bea Smith " = "Ann"
  ∧ (∀ t n c, has_any t AUTO_ESCALATE = true →
       (build_response t n c).escalation_suggested =
         some ("Hi " ++ first_name n ++ ", I" ++ aposS ++
           "m looping a specialist in now. What" ++ aposS ++
           "s the best number/time today?"))
  ∧ (∀ t n c, (build_response t n c).notes = "disqualify_self_help" →
       (build_response t n c).reply_text = some (selfHelpMsg (first_name n))) := by
  refine ⟨?_, by decide, by decide, by decide, ?_, ?_⟩
  · intro t n c
    rw [build_response]
    by_cases hE : has_any t AUTO_ESCALATE = true
    · rw [if_pos hE]
      exact ⟨fun _ => rfl, fun _ => rfl⟩
    · rw [if_neg hE]
      by_cases hS : under_low (amt_for_decision t c) = true ∧
          detect_no_unfiled t = true
      · rw [if_pos hS]
        constructor
        · intro h
          simp [selfHelpDecision] at h
        · intro h
          exact absurd (show ("reply" : String) = "escalate" from h) (by decide)
      · rw [if_neg hS]
        cases hP : parse_amount t with
        | none =>
          constructor
          · intro h
            simp [clarifyDecision] at h
          · intro h
            exact absurd (show ("reply" : String) = "escalate" from h)
              (by decide)
        | some a =>
          dsimp only
          split_ifs with g1 g2 g3
          · constructor
            · intro h
              simp [overDecision] at h
            · intro h
              exact absurd (show ("qualified" : String) = "escalate" from h)
                (by decide)
          · constructor
            · intro h
              simp [midUnfiledDecision] at h
            · intro h
              exact absurd (show ("qualified" : String) = "escalate" from h)
                (by decide)
          · constructor
            · intro h
              simp [underSecondaryDecision] at h
            · intro h
              exact absurd (show ("reply" : String) = "escalate" from h)
                (by decide)
          · constructor
            · intro h
              simp [midBandDecision] at h
            · intro h
              exact absurd (show ("reply" : String) = "escalate" from h)
                (by decide)
  · intro t n c h
    rw [build_response, if_pos h]
    rfl
  · intro t n c h
    rw [build_response] at h ⊢
    by_cases hE : has_any t AUTO_ESCALATE = true
    · rw [if_pos hE] at h
      exact absurd (show ("auto_escalate_keyword" : String) =
        "disqualify_self_help" from h) (by decide)
    · rw [if_neg hE] at h ⊢
      by_cases hS : under_low (amt_for_decision t c) = true ∧
          detect_no_unfiled t = true
      · rw [if_pos hS]
        rfl
      · rw [if_neg hS] at h ⊢
        cases hP : parse_amount t with
        | none =>
          rw [hP] at h
          exact absurd (show ("primary_clarify" : String) =
            "disqualify_self_help" from h) (by decide)
        | some a =>
          exfalso
          rw [hP] at h
          dsimp only at h
          split_ifs at h <;>
            first
            | exact absurd (show ("auto_qualified_by_amount" : String) =
                "disqualify_self_help" from h) (by decide)
            | exact absurd (show ("qualified_mid_with_unfiled" : String) =
                "disqualify_self_help" from h) (by decide)
            | exact absurd (show ("followup_missing_years_under_threshold" :
                String) = "disqualify_self_help" from h) (by decide)
            | exact absurd (show ("mid_band_send_booking" : String) =
                "disqualify_self_help" from h) (by decide)

/-- Witness for C8: the escalation suggestion is personalized with the first
token of the sender name. -/
theorem C8_witness :
    has_any "chargeback" AUTO_ESCALATE = true ∧
    (build_response "chargeback" "Ann Bea" none).escalation_suggested =
      some ("Hi " ++ first_name "Ann Bea" ++ ", I" ++ aposS ++
        "m looping a specialist in now. What" ++ aposS ++
        "s the best number/time today?") :=
  ⟨by decide,
   C8_reply_text_null_iff_escalate.2.2.2.2.1 "chargeback" "Ann Bea" none
     (by decide)⟩
